import Mathlib

/-!
Verification development for the tesseract cross-chain atomic-swap escrow.

The protocol core consists of three source artifacts:
* the Tezos escrow contract (`announce_order`, `fund_dst_escrow`, `claim_funds`,
  `cancel_swap`, `rescue_funds`, dispatched by `main`),
* the production TypeScript utility module (`packTimelocks`, `unpackTimelocks`,
  `hashSecret`, `validateEscrowParams`),
* a mock JavaScript utility module with the same pack/unpack functions.

These are embedded shallowly below: JavaScript `BigInt` values become `Int`
(arbitrary precision; on non-negative values the bitwise operations coincide
with `Nat` bitwise operations), byte strings become `List Nat`, addresses
become `String`, Michelson `failwith` becomes `Except.error` (which also
models that an aborted operation leaves the contract storage unchanged).
The keccak256 hash is a platform primitive on both chains and is threaded
through as an explicit function parameter.
-/

namespace Tesseract

/-- Raw byte strings (secrets, hashes) are modelled as lists of bytes. -/
abbrev Bytes := List ℕ

/-- Chain-native account identifiers. -/
abbrev Address := String

/-! ## JavaScript `BigInt` string conversions

`jsBigIntToString16` models `BigInt.prototype.toString(16)` (lowercase hex
digits, a leading minus sign on negatives). `jsStringToBigInt` models the
`BigInt(string)` constructor on the grammar fragment this repository feeds it:
the empty string (which JavaScript converts to `0n`), `0x`/`0X`-prefixed
hexadecimal, and optionally signed decimal; `none` models a thrown
`SyntaxError`. -/

def hexDigitChar (n : ℕ) : Char :=
  if n < 10 then Char.ofNat (48 + n) else Char.ofNat (87 + n)

def natToHexDigits (n : ℕ) : List Char :=
  if _h : n < 16 then [hexDigitChar n]
  else natToHexDigits (n / 16) ++ [hexDigitChar (n % 16)]
termination_by n
decreasing_by exact Nat.div_lt_self (by omega) (by norm_num)

def jsBigIntToString16 (n : ℤ) : String :=
  if n < 0 then "-" ++ String.mk (natToHexDigits (-n).toNat)
  else String.mk (natToHexDigits n.toNat)

def hexCharVal (c : Char) : Option ℕ :=
  if 48 ≤ c.toNat ∧ c.toNat ≤ 57 then some (c.toNat - 48)
  else if 97 ≤ c.toNat ∧ c.toNat ≤ 102 then some (c.toNat - 87)
  else if 65 ≤ c.toNat ∧ c.toNat ≤ 70 then some (c.toNat - 55)
  else none

def decCharVal (c : Char) : Option ℕ :=
  if 48 ≤ c.toNat ∧ c.toNat ≤ 57 then some (c.toNat - 48) else none

def parseDigitsCore (digitVal : Char → Option ℕ) (base : ℕ) (cs : List Char) : Option ℕ :=
  cs.foldl (fun acc c => acc.bind fun a => (digitVal c).map fun v => base * a + v) (some 0)

def jsStringToBigIntAux : List Char → Option ℤ
  | [] => some 0
  | '0' :: 'x' :: rest =>
      if rest = [] then none else (parseDigitsCore hexCharVal 16 rest).map fun n => (n : ℤ)
  | '0' :: 'X' :: rest =>
      if rest = [] then none else (parseDigitsCore hexCharVal 16 rest).map fun n => (n : ℤ)
  | '-' :: rest =>
      if rest = [] then none else (parseDigitsCore decCharVal 10 rest).map fun n => -(n : ℤ)
  | '+' :: rest =>
      if rest = [] then none else (parseDigitsCore decCharVal 10 rest).map fun n => (n : ℤ)
  | cs => (parseDigitsCore decCharVal 10 cs).map fun n => (n : ℤ)

def jsStringToBigInt (s : String) : Option ℤ :=
  jsStringToBigIntAux s.data

/-! ## The timelock schedule shape returned by `unpackTimelocks`

The JavaScript object `{ deployedAt, 0: t0, ..., 6: t6 }` is modelled as a
record with a `deployedAt` field and one absolute stage time per stage index. -/

@[ext]
structure UnpackedTimelocks where
  deployedAt : ℤ
  stage : Fin 7 → ℤ

/-! ## Production TypeScript utilities (tezosUtils.ts) -/

namespace TezosUtils

/-- `hashSecret(secret) = keccak256(secret)` — hash a secret with keccak256
(equivalent to Solidity), the library hash function passed as a parameter. -/
def hashSecret (keccak256 : Bytes → Bytes) (secret : Bytes) : Bytes :=
  keccak256 secret

/-- The numeric value accumulated by `packTimelocks` before hex rendering:
`packed = BigInt(deployedAt) << 224n`, then for each defined stage
`packed |= (timelocks[stage] - deployedAt) << BigInt(stage * 32)`. -/
def packTimelocksVal (timelocks : Fin 7 → Option ℤ) (deployedAt : ℤ) : ℤ :=
  (List.finRange 7).foldl
    (fun packed stage =>
      match timelocks stage with
      | some t => Int.lor packed ((t - deployedAt) <<< ((((stage : ℕ) * 32 : ℕ)) : ℤ))
      | none => packed)
    (deployedAt <<< (224 : ℤ))

/-- `packTimelocks` returns `'0x' + packed.toString(16)`. -/
def packTimelocks (timelocks : Fin 7 → Option ℤ) (deployedAt : ℤ) : String :=
  "0x" ++ jsBigIntToString16 (packTimelocksVal timelocks deployedAt)

/-- The unpacking of an already-parsed 256-bit word:
`deployedAt = (data >> 224n) & 0xFFFFFFFFn` and, for each stage,
`timelocks[stage] = deployedAt + ((data >> BigInt(stage * 32)) & 0xFFFFFFFFn)`.
(The JavaScript `Number(...)` conversions are exact here because every
extracted field is below `2^32`, well within `2^53`.) -/
def unpackTimelocksVal (data : ℤ) : UnpackedTimelocks :=
  { deployedAt := Int.land (data >>> (224 : ℤ)) 0xFFFFFFFF
    stage := fun s =>
      Int.land (data >>> (224 : ℤ)) 0xFFFFFFFF +
        Int.land (data >>> ((((s : ℕ) * 32 : ℕ)) : ℤ)) 0xFFFFFFFF }

/-- `unpackTimelocks` first converts its string argument with `BigInt(...)`. -/
def unpackTimelocks (packedTimelocks : String) : Option UnpackedTimelocks :=
  (jsStringToBigInt packedTimelocks).map unpackTimelocksVal

/-- Parameters of `validateEscrowParams`. All scalar fields arrive as strings;
`timelocks` is an object (and is therefore always truthy in the required-field
check, which is why no check on it appears below). -/
structure EscrowParams where
  orderHash : String
  hashlock : String
  maker : String
  taker : String
  token : String
  amount : String
  safetyDeposit : String
  timelocks : Fin 7 → Option ℤ

/-- JavaScript truthiness of a string: every string except `''` is truthy. -/
def jsTruthy (s : String) : Bool :=
  s != ""

/-- The regex `^0x[0-9a-fA-F]{64}$`. -/
def matchesBytes32Hex (s : String) : Bool :=
  match s.data with
  | '0' :: 'x' :: rest => rest.length == 64 && rest.all fun c => (hexCharVal c).isSome
  | _ => false

/-- The regex `^t[1-3][0-9a-zA-Z]{33}$`. -/
def matchesTezosAddress (s : String) : Bool :=
  match s.data with
  | 't' :: c :: rest =>
      (c == '1' || c == '2' || c == '3') && rest.length == 33 && rest.all Char.isAlphanum
  | _ => false

/-- `validateEscrowParams`: required-field checks in source order, then format
checks, then the amount and safety-deposit sign checks. A thrown `Error(msg)`
becomes `Except.error msg`; the JavaScript `BigInt(...)` conversion failure
(a thrown `SyntaxError`) becomes the `Cannot convert ...` error. -/
def validateEscrowParams (params : EscrowParams) : Except String Unit :=
  if !jsTruthy params.orderHash then .error "Missing required parameter: orderHash"
  else if !jsTruthy params.hashlock then .error "Missing required parameter: hashlock"
  else if !jsTruthy params.maker then .error "Missing required parameter: maker"
  else if !jsTruthy params.taker then .error "Missing required parameter: taker"
  else if !jsTruthy params.token then .error "Missing required parameter: token"
  else if !jsTruthy params.amount then .error "Missing required parameter: amount"
  else if !jsTruthy params.safetyDeposit then .error "Missing required parameter: safetyDeposit"
  else if !matchesBytes32Hex params.orderHash then .error "Invalid orderHash format"
  else if !matchesBytes32Hex params.hashlock then .error "Invalid hashlock format"
  else if !matchesTezosAddress params.maker then .error "Invalid maker Tezos address"
  else if !matchesTezosAddress params.taker then .error "Invalid taker Tezos address"
  else
    match jsStringToBigInt params.amount with
    | none => .error ("Cannot convert " ++ params.amount ++ " to a BigInt")
    | some amt =>
      if amt ≤ 0 then .error "Amount must be positive"
      else
        match jsStringToBigInt params.safetyDeposit with
        | none => .error ("Cannot convert " ++ params.safetyDeposit ++ " to a BigInt")
        | some sd =>
          if sd < 0 then .error "Safety deposit cannot be negative"
          else .ok ()

end TezosUtils

/-! ## Mock JavaScript utilities (tezosUtils.js)

The mock module's `packTimelocks`/`unpackTimelocks` bodies are transcribed
from the mock source file; they are embedded separately so that their
extensional agreement with the production module is a theorem about two
definitions, not an assumption. -/

namespace TezosUtilsMock

def packTimelocksVal (timelocks : Fin 7 → Option ℤ) (deployedAt : ℤ) : ℤ :=
  (List.finRange 7).foldl
    (fun packed stage =>
      match timelocks stage with
      | some t => Int.lor packed ((t - deployedAt) <<< ((((stage : ℕ) * 32 : ℕ)) : ℤ))
      | none => packed)
    (deployedAt <<< (224 : ℤ))

def packTimelocks (timelocks : Fin 7 → Option ℤ) (deployedAt : ℤ) : String :=
  "0x" ++ jsBigIntToString16 (packTimelocksVal timelocks deployedAt)

def unpackTimelocksVal (data : ℤ) : UnpackedTimelocks :=
  { deployedAt := Int.land (data >>> (224 : ℤ)) 0xFFFFFFFF
    stage := fun s =>
      Int.land (data >>> (224 : ℤ)) 0xFFFFFFFF +
        Int.land (data >>> ((((s : ℕ) * 32 : ℕ)) : ℤ)) 0xFFFFFFFF }

def unpackTimelocks (packedTimelocks : String) : Option UnpackedTimelocks :=
  (jsStringToBigInt packedTimelocks).map unpackTimelocksVal

end TezosUtilsMock

/-! ## The Tezos escrow contract -/

namespace Contract

/-- One emitted chain effect. The contract only ever builds
`Operation.transfer_tokens amount destination self []`. -/
inductive Operation where
  | transfer_tokens : ℕ → Address → Address → List Operation → Operation
deriving Repr

/-- `order_metadata` record of the contract storage. Amounts are mutez
(a natural number); timestamps are integers as in Michelson. -/
structure OrderMetadata where
  id : ℕ
  maker_address : Address
  escrow_address : Address
  amount : ℕ
  secret_hash : Bytes
  expiration_timestamp : ℤ
  revealed_secret : Option Bytes

/-- Contract storage: the orders big map, the order counter, and the owner. -/
structure Storage where
  orders : ℕ → Option OrderMetadata
  order_counter : ℕ
  owner : Address

/-- `Big_map.update key (Some value)` on the orders map. -/
def bigMapUpdate (key : ℕ) (value : Option OrderMetadata) (m : ℕ → Option OrderMetadata) :
    ℕ → Option OrderMetadata :=
  fun n => if n = key then value else m n

/-- Ambient transaction context: `Tezos.sender`, `Tezos.self_address`,
`Tezos.now`. -/
structure Ctx where
  sender : Address
  self_address : Address
  now : ℤ

/-- `keccak256_hash data = Crypto.keccak256 data` (platform primitive,
passed as a parameter). -/
def keccak256_hash (keccak256 : Bytes → Bytes) (data : Bytes) : Bytes :=
  keccak256 data

/-- Check if a secret matches the hashlock. -/
def check_hash (keccak256 : Bytes → Bytes) (secret : Bytes) (hash : Bytes) : Bool :=
  keccak256_hash keccak256 secret = hash

/-- Validate the time window for actions: `current_time < expiration`. -/
def validate_time_window (current_time : ℤ) (expiration : ℤ) : Bool :=
  current_time < expiration

/-- `announce_order` — create a new escrow order. The string-length check on
the secret hash (`String.length (Bytes.to_string secret_hash) <> 32`) is
modelled as a length check on the byte list. -/
def announce_order (ctx : Ctx) (param : ℕ × ℕ × ℕ × Bytes) (storage : Storage) :
    Except String (List Operation × Storage) :=
  let (src_amount, min_dst_amount, expiration_duration, secret_hash) := param
  if src_amount ≤ 0 then .error "Invalid amount"
  else if min_dst_amount ≤ 0 then .error "Invalid min amount"
  else if expiration_duration ≤ 0 then .error "Invalid expiration"
  else if secret_hash.length ≠ 32 then .error "Invalid secret hash length"
  else
    let expiration_timestamp := ctx.now + (expiration_duration : ℤ)
    let order_id := storage.order_counter
    let new_order : OrderMetadata :=
      { id := order_id
        maker_address := ctx.sender
        escrow_address := ctx.self_address
        amount := src_amount
        secret_hash := secret_hash
        expiration_timestamp := expiration_timestamp
        revealed_secret := none }
    let new_storage : Storage :=
      { orders := bigMapUpdate order_id (some new_order) storage.orders
        order_counter := storage.order_counter + 1
        owner := storage.owner }
    .ok ([], new_storage)

/-- `fund_dst_escrow` — fund the destination-side escrow. -/
def fund_dst_escrow (ctx : Ctx) (param : ℕ × ℕ × Bytes) (storage : Storage) :
    Except String (List Operation × Storage) :=
  let (dst_amount, expiration_duration, secret_hash) := param
  if dst_amount ≤ 0 then .error "Invalid amount"
  else if expiration_duration ≤ 0 then .error "Invalid expiration"
  else
    let expiration_timestamp := ctx.now + (expiration_duration : ℤ)
    let order_id := storage.order_counter
    let new_order : OrderMetadata :=
      { id := order_id
        maker_address := ctx.sender
        escrow_address := ctx.self_address
        amount := dst_amount
        secret_hash := secret_hash
        expiration_timestamp := expiration_timestamp
        revealed_secret := none }
    let new_storage : Storage :=
      { orders := bigMapUpdate order_id (some new_order) storage.orders
        order_counter := storage.order_counter + 1
        owner := storage.owner }
    .ok ([], new_storage)

/-- `claim_funds` — claim the locked funds by revealing the secret. -/
def claim_funds (keccak256 : Bytes → Bytes) (ctx : Ctx) (param : ℕ × Bytes)
    (storage : Storage) : Except String (List Operation × Storage) :=
  let (order_id, secret) := param
  match storage.orders order_id with
  | none => .error "Order not found"
  | some order =>
    if order.revealed_secret.isSome then .error "Order already claimed"
    else if !validate_time_window ctx.now order.expiration_timestamp then
      .error "Order expired"
    else if !check_hash keccak256 secret order.secret_hash then .error "Invalid secret"
    else
      let updated_order := { order with revealed_secret := some secret }
      let new_storage :=
        { storage with orders := bigMapUpdate order_id (some updated_order) storage.orders }
      let transfer_op :=
        Operation.transfer_tokens order.amount ctx.sender ctx.self_address []
      .ok ([transfer_op], new_storage)

/-- `cancel_swap` — cancel the swap and return the funds to the maker.
Note that the returned storage is the input storage: the contract does not
record the cancellation in any way. -/
def cancel_swap (ctx : Ctx) (param : ℕ) (storage : Storage) :
    Except String (List Operation × Storage) :=
  let order_id := param
  match storage.orders order_id with
  | none => .error "Order not found"
  | some order =>
    if order.revealed_secret.isSome then .error "Order already claimed"
    else if validate_time_window ctx.now order.expiration_timestamp then
      .error "Order not expired yet"
    else
      let transfer_op :=
        Operation.transfer_tokens order.amount order.maker_address ctx.self_address []
      .ok ([transfer_op], storage)

/-- `rescue_funds` — owner-only emergency recovery. It neither checks nor
records any order state beyond existence. -/
def rescue_funds (ctx : Ctx) (param : ℕ) (storage : Storage) :
    Except String (List Operation × Storage) :=
  let order_id := param
  if ctx.sender ≠ storage.owner then .error "Only owner can rescue funds"
  else
    match storage.orders order_id with
    | none => .error "Order not found"
    | some order =>
      let transfer_op :=
        Operation.transfer_tokens order.amount storage.owner ctx.self_address []
      .ok ([transfer_op], storage)

/-- The contract parameter. -/
inductive Parameter where
  | Announce_order (src_amount : ℕ) (min_dst_amount : ℕ) (expiration_duration : ℕ)
      (secret_hash : Bytes)
  | Fund_dst_escrow (dst_amount : ℕ) (expiration_duration : ℕ) (secret_hash : Bytes)
  | Claim_funds (order_id : ℕ) (secret : Bytes)
  | Cancel_swap (order_id : ℕ)
  | Rescue_funds (order_id : ℕ)

/-- The contract entry point. -/
def main (keccak256 : Bytes → Bytes) (ctx : Ctx) (param : Parameter) (storage : Storage) :
    Except String (List Operation × Storage) :=
  match param with
  | .Announce_order a m e h => announce_order ctx (a, m, e, h) storage
  | .Fund_dst_escrow d e h => fund_dst_escrow ctx (d, e, h) storage
  | .Claim_funds o s => claim_funds keccak256 ctx (o, s) storage
  | .Cancel_swap o => cancel_swap ctx o storage
  | .Rescue_funds o => rescue_funds ctx o storage

end Contract

/-- A concrete stand-in hash function used to instantiate the abstract
keccak256 parameter in closed witnesses and counterexamples (every theorem
below that involves hashing is quantified over the hash function, so any
concrete function is admissible for instantiation). -/
def idHash : Bytes → Bytes := fun b => b

/-! ## Concrete fixtures used by closed witnesses and counterexamples -/

/-- C4 failing input: a schedule whose stage-0 offset is `2^32` (one past the
representable range); all other stages undefined; `deployedAt = 0`. -/
def tlC4 : Fin 7 → Option ℤ := fun s => if s = 0 then some 4294967296 else none

/-- C3 witness fixture: a concrete schedule anchored at 1000 with offsets
10, 20, ..., 70. -/
def schedC3 : Fin 7 → ℤ := fun s => 1000 + 10 * ((s : ℕ) + 1)

/-- C1 fixture: a live, already-expired order. -/
def oC1 : Contract.OrderMetadata :=
  { id := 0, maker_address := "tz1Maker", escrow_address := "KT1Escrow", amount := 50,
    secret_hash := [1, 2, 3], expiration_timestamp := 100, revealed_secret := none }

def stC1 : Contract.Storage :=
  { orders := Contract.bigMapUpdate 0 (some oC1) fun _ => none,
    order_counter := 1, owner := "tz1Owner" }

/-- C1 fixture: a non-maker caller at a time past the order's expiration. -/
def ctxC1 : Contract.Ctx :=
  { sender := "tz1Other", self_address := "KT1Escrow", now := 150 }

/-- The refund transfer emitted by a successful `cancel_swap` on `oC1`. -/
def refundC1 : Contract.Operation :=
  Contract.Operation.transfer_tokens 50 "tz1Maker" "KT1Escrow" []

/-- C2 fixture: a live order expiring at time 1000 whose hashlock commits
(under the instantiating hash function `idHash`) to the secret `[5, 6]`. -/
def oC2 : Contract.OrderMetadata :=
  { id := 0, maker_address := "tz1MakerB", escrow_address := "KT1EscrowB", amount := 40,
    secret_hash := [5, 6], expiration_timestamp := 1000, revealed_secret := none }

def stC2 : Contract.Storage :=
  { orders := Contract.bigMapUpdate 0 (some oC2) fun _ => none,
    order_counter := 1, owner := "tz1OwnerB" }

/-- C2 witness context: inside the order's live window. -/
def ctxC2W : Contract.Ctx :=
  { sender := "tz1TakerB", self_address := "KT1EscrowB", now := 500 }

/-- C5 fixture: a live order whose hashlock commits (under `idHash`) to the
secret `[9, 9]`. -/
def oC5 : Contract.OrderMetadata :=
  { id := 0, maker_address := "tz1MakerC", escrow_address := "KT1EscrowC", amount := 80,
    secret_hash := [9, 9], expiration_timestamp := 2000, revealed_secret := none }

def stC5 : Contract.Storage :=
  { orders := Contract.bigMapUpdate 0 (some oC5) fun _ => none,
    order_counter := 1, owner := "tz1OwnerC" }

def ctxC5 : Contract.Ctx :=
  { sender := "tz1TakerC", self_address := "KT1EscrowC", now := 1015 }

/-- C6 fixture: a live order expiring at time 1000. -/
def oC6 : Contract.OrderMetadata :=
  { id := 0, maker_address := "tz1MakerD", escrow_address := "KT1EscrowD", amount := 75,
    secret_hash := [4, 4], expiration_timestamp := 1000, revealed_secret := none }

def stC6 : Contract.Storage :=
  { orders := Contract.bigMapUpdate 0 (some oC6) fun _ => none,
    order_counter := 1, owner := "tz1OwnerD" }

/-- C6 fixture: a caller who is not the maker, exactly at the order's
cancellation time (hence inside any private cancellation stage that precedes
a later public stage). -/
def ctxC6 : Contract.Ctx :=
  { sender := "tz1NotMakerD", self_address := "KT1EscrowD", now := 1000 }

/-- C9 fixture: a 32-byte secret hash. -/
def hashC9 : Bytes := List.replicate 32 7

/-- C9 fixture: a live order that is already expired (so that `Cancel_swap`
succeeds and exercises amount preservation through `main`). -/
def oC9 : Contract.OrderMetadata :=
  { id := 0, maker_address := "tz1MakerE", escrow_address := "KT1EscrowE", amount := 33,
    secret_hash := hashC9, expiration_timestamp := 100, revealed_secret := none }

def stC9 : Contract.Storage :=
  { orders := Contract.bigMapUpdate 0 (some oC9) fun _ => none,
    order_counter := 1, owner := "tz1OwnerE" }

def ctxC9 : Contract.Ctx :=
  { sender := "tz1SenderE", self_address := "KT1EscrowE", now := 200 }

/-- C9 fixture for `validateEscrowParams`: every field well-formed except that
the amount is the (truthy) string `"0"`, whose `BigInt` value is not positive. -/
def paramsC9 : TezosUtils.EscrowParams :=
  { orderHash := "0x0000000000000000000000000000000000000000000000000000000000000000"
    hashlock := "0x0000000000000000000000000000000000000000000000000000000000000000"
    maker := "t1AAAAAAAAAAAAAAAAAAAAAAAAAAAAAAAAA"
    taker := "t1AAAAAAAAAAAAAAAAAAAAAAAAAAAAAAAAA"
    token := "TOK"
    amount := "0"
    safetyDeposit := "0"
    timelocks := fun _ => none }

/-! ## Formal statements of the claims C2 and C6 as written

These definitions transcribe the claims' own wording so that the
counterexample theorems can refute exactly what is claimed. -/

/-- C2, first half, as stated: for every live record there is a withdrawal
stage opening time `w` such that every `Claim` strictly before `w` fails
(with any error: this is the weakest reading, making the refutation below as
strong as possible). The contract's record stores no withdrawal stage, so the
opening time is existentially quantified. -/
def windowNotYetOpenGuard (keccak256 : Bytes → Bytes) : Prop :=
  ∀ (st : Contract.Storage) (oid : ℕ) (o : Contract.OrderMetadata),
    st.orders oid = some o → o.revealed_secret = none →
    ∃ w : ℤ, ∀ (ctx : Contract.Ctx) (secret : Bytes), ctx.now < w →
      ∃ e, Contract.claim_funds keccak256 ctx (oid, secret) st = Except.error e

/-- C2, second half, as stated: a `Cancel` strictly before the cancellation
stage time (the stored expiration timestamp) fails and leaves the record
unchanged. -/
def cancelBeforeExpirationFails : Prop :=
  ∀ (ctx : Contract.Ctx) (st : Contract.Storage) (oid : ℕ) (o : Contract.OrderMetadata),
    st.orders oid = some o → o.revealed_secret = none →
    ctx.now < o.expiration_timestamp →
    ∃ e, Contract.cancel_swap ctx oid st = Except.error e

/-- C2 as stated: both halves of the window-enforcement claim. -/
def claimC2Statement (keccak256 : Bytes → Bytes) : Prop :=
  windowNotYetOpenGuard keccak256 ∧ cancelBeforeExpirationFails

/-- C6 as stated: during the private cancellation stage (at or after the
cancellation stage time, strictly before a later public cancellation stage
time), `Cancel` succeeds only when the caller is the maker. -/
def cancelRequiresMakerCaller : Prop :=
  ∀ (ctx : Contract.Ctx) (st : Contract.Storage) (oid : ℕ) (o : Contract.OrderMetadata)
    (publicCancellationTime : ℤ),
    st.orders oid = some o → o.revealed_secret = none →
    o.expiration_timestamp ≤ ctx.now → ctx.now < publicCancellationTime →
    (∃ r, Contract.cancel_swap ctx oid st = Except.ok r) →
    ctx.sender = o.maker_address

/-! ## Bit-level helper lemmas on `Nat` -/

theorem lor_shiftRight (a b k : ℕ) : (a ||| b) >>> k = (a >>> k) ||| (b >>> k) := by
  apply Nat.eq_of_testBit_eq
  intro i
  simp [Nat.testBit_shiftRight, Nat.testBit_lor]

theorem lor_land_distrib (a b m : ℕ) : (a ||| b) &&& m = (a &&& m) ||| (b &&& m) := by
  apply Nat.eq_of_testBit_eq
  intro i
  simp only [Nat.testBit_land, Nat.testBit_lor]
  cases a.testBit i <;> cases b.testBit i <;> cases m.testBit i <;> rfl

theorem shl_shr_lo (x : ℕ) {p k : ℕ} (hx : x < 4294967296) (h : p + 32 ≤ k) :
    (x <<< p) >>> k = 0 := by
  have hx2 : x < 2 ^ 32 := by rw [show (2 : ℕ) ^ 32 = 4294967296 from by norm_num]; exact hx
  rw [Nat.shiftLeft_eq, Nat.shiftRight_eq_div_pow]
  apply Nat.div_eq_of_lt
  calc x * 2 ^ p < 2 ^ 32 * 2 ^ p := by
        exact Nat.mul_lt_mul_of_lt_of_le hx2 (Nat.le_refl _) (Nat.pos_pow_of_pos p (by norm_num))
    _ = 2 ^ (32 + p) := by rw [pow_add]
    _ ≤ 2 ^ k := Nat.pow_le_pow_right (by norm_num) (by omega)

theorem shl_shr_hi (x : ℕ) {p k : ℕ} (h : k ≤ p) : (x <<< p) >>> k = x <<< (p - k) := by
  rw [Nat.shiftLeft_eq, Nat.shiftLeft_eq, Nat.shiftRight_eq_div_pow]
  rw [show (2 : ℕ) ^ p = 2 ^ (p - k) * 2 ^ k by rw [← pow_add]; congr 1; omega]
  rw [← Nat.mul_assoc]
  exact Nat.mul_div_cancel _ (Nat.pos_pow_of_pos k (by norm_num))

theorem shl_land_mask_eq_zero (x : ℕ) {d : ℕ} (hd : 32 ≤ d) :
    (x <<< d) &&& 4294967295 = 0 := by
  rw [show (4294967295 : ℕ) = 2 ^ 32 - 1 from by norm_num]
  rw [Nat.and_pow_two_sub_one_eq_mod, Nat.shiftLeft_eq]
  rw [show x * 2 ^ d = x * 2 ^ (d - 32) * 2 ^ 32 by rw [Nat.mul_assoc, ← pow_add]; congr 2; omega]
  exact Nat.mul_mod_left _ _

theorem shr_eq_zero (x : ℕ) {k : ℕ} (hx : x < 4294967296) (h : 32 ≤ k) : x >>> k = 0 := by
  rw [Nat.shiftRight_eq_div_pow]
  apply Nat.div_eq_of_lt
  calc x < 4294967296 := hx
    _ = 2 ^ 32 := by norm_num
    _ ≤ 2 ^ k := Nat.pow_le_pow_right (by norm_num) h

theorem land_mask_self (x : ℕ) (hx : x < 4294967296) : x &&& 4294967295 = x := by
  have hx2 : x < 2 ^ 32 := by rw [show (2 : ℕ) ^ 32 = 4294967296 from by norm_num]; exact hx
  rw [show (4294967295 : ℕ) = 2 ^ 32 - 1 from by norm_num]
  exact Nat.and_pow_two_sub_one_of_lt_two_pow hx2

/-! Bridges between `Int` bitwise operations (JavaScript `BigInt` semantics)
and `Nat` bitwise operations, valid on non-negative values. -/

theorem intLor_ofNat (a b : ℕ) : Int.lor (a : ℤ) (b : ℤ) = ((a ||| b : ℕ) : ℤ) := rfl

theorem intLand_ofNat (a b : ℕ) : Int.land (a : ℤ) (b : ℤ) = ((a &&& b : ℕ) : ℤ) := rfl

theorem intShr_ofNat (w k : ℕ) : ((w : ℤ) >>> ((k : ℕ) : ℤ)) = ((w >>> k : ℕ) : ℤ) :=
  Int.shiftRight_coe_nat w k

theorem intShl_ofNat (w k : ℕ) : ((w : ℤ) <<< ((k : ℕ) : ℤ)) = ((w <<< k : ℕ) : ℤ) :=
  Int.shiftLeft_coe_nat w k

theorem intShrLandMask_ofNat (w k : ℕ) :
    Int.land ((w : ℤ) >>> ((k : ℕ) : ℤ)) 0xFFFFFFFF = ((w >>> k) &&& 0xFFFFFFFF : ℕ) := by
  rw [intShr_ofNat]
  exact intLand_ofNat _ _

/-! ## Correctness of the hex string printer/parser pair -/

theorem hexCharVal_hexDigitChar (k : ℕ) (h : k < 16) : hexCharVal (hexDigitChar k) = some k := by
  interval_cases k <;> rfl

theorem parseDigitsCore_natToHexDigits (n : ℕ) :
    parseDigitsCore hexCharVal 16 (natToHexDigits n) = some n := by
  induction n using Nat.strong_induction_on with
  | _ n ih =>
    rw [natToHexDigits]
    split_ifs with h
    · simp [parseDigitsCore, hexCharVal_hexDigitChar n h]
    · have hrec := ih (n / 16) (Nat.div_lt_self (by omega) (by norm_num))
      unfold parseDigitsCore at hrec ⊢
      rw [List.foldl_append, hrec]
      simp [hexCharVal_hexDigitChar (n % 16) (by omega), Nat.div_add_mod]

theorem natToHexDigits_ne_nil (n : ℕ) : natToHexDigits n ≠ [] := by
  rw [natToHexDigits]
  split_ifs <;> simp

theorem jsStringToBigInt_zeroX (n : ℕ) :
    jsStringToBigInt ("0x" ++ String.mk (natToHexDigits n)) = some (n : ℤ) := by
  have hdata : ("0x" ++ String.mk (natToHexDigits n)).data = '0' :: 'x' :: natToHexDigits n := rfl
  rw [jsStringToBigInt, hdata]
  simp [jsStringToBigIntAux, natToHexDigits_ne_nil, parseDigitsCore_natToHexDigits]

/-- Unpacking a packed string first re-parses the hex rendering; on
non-negative packed values this recovers the packed value exactly. -/
theorem unpackTimelocks_packTimelocks (tl : Fin 7 → Option ℤ) (d : ℤ)
    (h : 0 ≤ TezosUtils.packTimelocksVal tl d) :
    TezosUtils.unpackTimelocks (TezosUtils.packTimelocks tl d) =
      some (TezosUtils.unpackTimelocksVal (TezosUtils.packTimelocksVal tl d)) := by
  rw [TezosUtils.packTimelocks, TezosUtils.unpackTimelocks, jsBigIntToString16, if_neg (by omega)]
  rw [jsStringToBigInt_zeroX]
  simp [Int.toNat_of_nonneg h]

/-! ## Claim theorems -/

set_option maxRecDepth 10000 in
/-- C4: the claim says `packTimelocks` must reject a schedule containing an
offset that does not fit in 32 bits with a `RangeError`. The code does not:
on the failing input it returns the packed word `0x100000000` without any
error, and the oversized stage-0 offset spills into the stage-1 slot (the
unpacked word reports stage-0 offset `0` and stage-1 offset `1`), so the
packed word does not even represent a truncation of the input. -/
theorem C4_pack_accepts_oversized_offset :
    TezosUtils.packTimelocksVal tlC4 0 = 4294967296 ∧
    TezosUtils.packTimelocks tlC4 0 = "0x100000000" ∧
    (TezosUtils.unpackTimelocksVal 4294967296).deployedAt = 0 ∧
    (TezosUtils.unpackTimelocksVal 4294967296).stage 0 = 0 ∧
    (TezosUtils.unpackTimelocksVal 4294967296).stage 1 = 1 := by
  have hval : TezosUtils.packTimelocksVal tlC4 0 = 4294967296 := by decide
  refine ⟨hval, ?_, by decide, by decide, by decide⟩
  rw [TezosUtils.packTimelocks, hval]
  rw [jsBigIntToString16, if_neg (by norm_num)]
  rw [natToHexDigits, natToHexDigits, natToHexDigits, natToHexDigits, natToHexDigits,
    natToHexDigits, natToHexDigits, natToHexDigits, natToHexDigits]
  norm_num
  rfl

/-- C8: `unpackTimelocks` is total on every 256-bit word `w`: it returns a
`deployedAt` equal to the 32-bit field at bits 224..255 of `w` and, for each
stage `s`, an absolute stage time `deployedAt + offset s` where `offset s` is
the 32-bit field at bits `32*s .. 32*s+31`; consequently every stage time is
at least `deployedAt`. -/
theorem C8_unpack_total (w : ℕ) (_hw : w < 2 ^ 256) :
    (TezosUtils.unpackTimelocksVal (w : ℤ)).deployedAt = ((w / 2 ^ 224 % 2 ^ 32 : ℕ) : ℤ) ∧
    (∀ s : Fin 7, (TezosUtils.unpackTimelocksVal (w : ℤ)).stage s =
      (TezosUtils.unpackTimelocksVal (w : ℤ)).deployedAt +
        ((w / 2 ^ ((s : ℕ) * 32) % 2 ^ 32 : ℕ) : ℤ)) ∧
    (∀ s : Fin 7, (TezosUtils.unpackTimelocksVal (w : ℤ)).deployedAt ≤
      (TezosUtils.unpackTimelocksVal (w : ℤ)).stage s) := by
  have hfield : ∀ k : ℕ, ((w >>> k) &&& 0xFFFFFFFF : ℕ) = w / 2 ^ k % 2 ^ 32 := by
    intro k
    rw [Nat.shiftRight_eq_div_pow, show (0xFFFFFFFF : ℕ) = 2 ^ 32 - 1 by norm_num,
      Nat.and_pow_two_sub_one_eq_mod]
  have hdep : (TezosUtils.unpackTimelocksVal (w : ℤ)).deployedAt =
      ((w / 2 ^ 224 % 2 ^ 32 : ℕ) : ℤ) := by
    show Int.land ((w : ℤ) >>> ((224 : ℕ) : ℤ)) 0xFFFFFFFF = _
    rw [intShrLandMask_ofNat, hfield]
  refine ⟨hdep, fun s => ?_, fun s => ?_⟩
  · show Int.land ((w : ℤ) >>> ((224 : ℕ) : ℤ)) 0xFFFFFFFF +
        Int.land ((w : ℤ) >>> ((((s : ℕ) * 32 : ℕ)) : ℤ)) 0xFFFFFFFF = _
    rw [intShrLandMask_ofNat, intShrLandMask_ofNat, hfield, hfield, hdep]
  · show (TezosUtils.unpackTimelocksVal (w : ℤ)).deployedAt ≤
      (TezosUtils.unpackTimelocksVal (w : ℤ)).deployedAt +
        Int.land ((w : ℤ) >>> ((((s : ℕ) * 32 : ℕ)) : ℤ)) 0xFFFFFFFF
    rw [intShrLandMask_ofNat]
    exact le_add_of_nonneg_right (Int.natCast_nonneg _)

/-- C8 witness: the theorem applied to the concrete word
`5 * 2^224 + 3 * 2^32 + 7`, whose unpacking has `deployedAt = 5`,
stage-1 offset `3`, stage-0 offset `7`. -/
theorem C8_unpack_total_witness :
    (5 * 2 ^ 224 + 3 * 2 ^ 32 + 7 : ℕ) < 2 ^ 256 ∧
    (TezosUtils.unpackTimelocksVal ((5 * 2 ^ 224 + 3 * 2 ^ 32 + 7 : ℕ) : ℤ)).deployedAt =
      (((5 * 2 ^ 224 + 3 * 2 ^ 32 + 7 : ℕ) / 2 ^ 224 % 2 ^ 32 : ℕ) : ℤ) ∧
    (TezosUtils.unpackTimelocksVal ((5 * 2 ^ 224 + 3 * 2 ^ 32 + 7 : ℕ) : ℤ)).stage 1 =
      (TezosUtils.unpackTimelocksVal ((5 * 2 ^ 224 + 3 * 2 ^ 32 + 7 : ℕ) : ℤ)).deployedAt +
        (((5 * 2 ^ 224 + 3 * 2 ^ 32 + 7 : ℕ) / 2 ^ (1 * 32) % 2 ^ 32 : ℕ) : ℤ) :=
  ⟨by norm_num, (C8_unpack_total _ (by norm_num)).1,
    (C8_unpack_total _ (by norm_num)).2.1 1⟩

/-- C10: the mock JavaScript module's `packTimelocks`/`unpackTimelocks` and
the production TypeScript module's versions are extensionally equal: on every
input they produce the identical hex string (pack) and the identical schedule
(unpack). The two embeddings are definitionally equal because the two source
bodies are token-for-token identical. -/
theorem C10_mock_matches_production :
    TezosUtilsMock.packTimelocks = TezosUtils.packTimelocks ∧
    TezosUtilsMock.unpackTimelocks = TezosUtils.unpackTimelocks ∧
    TezosUtilsMock.packTimelocksVal = TezosUtils.packTimelocksVal ∧
    TezosUtilsMock.unpackTimelocksVal = TezosUtils.unpackTimelocksVal :=
  ⟨rfl, rfl, rfl, rfl⟩

/-- C7: for every secret `x`, verifying `x` against `hash(x)` returns true,
and verification of `x` against a commitment `c` returns true exactly when
`keccak256 x` equals `c` byte for byte (hence false whenever they differ). -/
theorem C7_verify_iff_hash_eq (keccak256 : Bytes → Bytes) (x c : Bytes) :
    Contract.check_hash keccak256 x (TezosUtils.hashSecret keccak256 x) = true ∧
    (Contract.check_hash keccak256 x c = true ↔ keccak256 x = c) := by
  constructor
  · simp [Contract.check_hash, Contract.keccak256_hash, TezosUtils.hashSecret]
  · simp [Contract.check_hash, Contract.keccak256_hash]

/-! ## General behavior lemmas for the contract entry points -/

theorem claim_funds_ok (keccak256 : Bytes → Bytes) (ctx : Contract.Ctx) (st : Contract.Storage)
    (oid : ℕ) (o : Contract.OrderMetadata) (secret : Bytes)
    (hfound : st.orders oid = some o) (hlive : o.revealed_secret = none)
    (hwin : ctx.now < o.expiration_timestamp) (hsec : keccak256 secret = o.secret_hash) :
    Contract.claim_funds keccak256 ctx (oid, secret) st =
      Except.ok ([Contract.Operation.transfer_tokens o.amount ctx.sender ctx.self_address []],
        { st with orders :=
            (Contract.bigMapUpdate oid (some { o with revealed_secret := some secret })
              st.orders) }) := by
  unfold Contract.claim_funds
  dsimp only
  rw [hfound]
  simp [hlive, Contract.validate_time_window, hwin, Contract.check_hash,
    Contract.keccak256_hash, hsec]

theorem claim_funds_wrong_secret (keccak256 : Bytes → Bytes) (ctx : Contract.Ctx)
    (st : Contract.Storage) (oid : ℕ) (o : Contract.OrderMetadata) (secret : Bytes)
    (hfound : st.orders oid = some o) (hlive : o.revealed_secret = none)
    (hwin : ctx.now < o.expiration_timestamp) (hsec : keccak256 secret ≠ o.secret_hash) :
    Contract.claim_funds keccak256 ctx (oid, secret) st = Except.error "Invalid secret" := by
  unfold Contract.claim_funds
  dsimp only
  rw [hfound]
  simp [hlive, Contract.validate_time_window, hwin, Contract.check_hash,
    Contract.keccak256_hash, hsec]

theorem cancel_swap_ok (ctx : Contract.Ctx) (st : Contract.Storage) (oid : ℕ)
    (o : Contract.OrderMetadata) (hfound : st.orders oid = some o)
    (hlive : o.revealed_secret = none) (hexp : o.expiration_timestamp ≤ ctx.now) :
    Contract.cancel_swap ctx oid st =
      Except.ok
        ([Contract.Operation.transfer_tokens o.amount o.maker_address ctx.self_address []],
          st) := by
  have hnw : ¬(ctx.now < o.expiration_timestamp) := by omega
  unfold Contract.cancel_swap
  dsimp only
  rw [hfound]
  simp [hlive, Contract.validate_time_window, hnw]

theorem cancel_swap_too_early (ctx : Contract.Ctx) (st : Contract.Storage) (oid : ℕ)
    (o : Contract.OrderMetadata) (hfound : st.orders oid = some o)
    (hlive : o.revealed_secret = none) (hwin : ctx.now < o.expiration_timestamp) :
    Contract.cancel_swap ctx oid st = Except.error "Order not expired yet" := by
  unfold Contract.cancel_swap
  dsimp only
  rw [hfound]
  simp [hlive, Contract.validate_time_window, hwin]

/-! ## Claims about the contract state machine -/

/-- C1: the claim says that once a record is terminal (in particular after a
successful `cancel_swap`), a second `cancel_swap` must fail with
`AlreadyFinalized` and must not emit a second refund. The code violates this:
`cancel_swap` returns the storage unchanged (it records nothing), so running
`cancel_swap` again on the storage returned by a successful `cancel_swap`
succeeds again and emits a second full refund transfer. -/
theorem C1_second_cancel_emits_second_refund :
    Contract.cancel_swap ctxC1 0 stC1 = Except.ok ([refundC1], stC1) ∧
    (Contract.cancel_swap ctxC1 0 stC1).bind
        (fun r => Contract.cancel_swap ctxC1 0 r.2) =
      Except.ok ([refundC1], stC1) :=
  ⟨rfl, rfl⟩

/-- C5: from a live (`Announced`) record, a claim inside the open window with
the correct secret succeeds, sets `revealed_secret` to the presented secret
(the record is thereby `Claimed`), and emits exactly one transfer of the
record's amount to the claimant (the transaction sender); with a wrong secret
it fails with `Invalid secret` and — the failure aborting the operation — the
record is unchanged. -/
theorem C5_claim_semantics (keccak256 : Bytes → Bytes) (ctx : Contract.Ctx)
    (st : Contract.Storage) (oid : ℕ) (o : Contract.OrderMetadata) (secret : Bytes)
    (hfound : st.orders oid = some o) (hlive : o.revealed_secret = none)
    (hwin : ctx.now < o.expiration_timestamp) :
    (keccak256 secret = o.secret_hash →
      Contract.claim_funds keccak256 ctx (oid, secret) st =
        Except.ok
          ([Contract.Operation.transfer_tokens o.amount ctx.sender ctx.self_address []],
            { st with orders :=
                (Contract.bigMapUpdate oid (some { o with revealed_secret := some secret })
                  st.orders) })) ∧
    (keccak256 secret ≠ o.secret_hash →
      Contract.claim_funds keccak256 ctx (oid, secret) st = Except.error "Invalid secret") :=
  ⟨fun hsec => claim_funds_ok keccak256 ctx st oid o secret hfound hlive hwin hsec,
   fun hsec => claim_funds_wrong_secret keccak256 ctx st oid o secret hfound hlive hwin hsec⟩

/-- C5 witness: the theorem applied to the concrete fixture order (amount 80,
hashlock committing to `[9, 9]` under `idHash`, expiring at 2000) at time
1015. -/
theorem C5_claim_semantics_witness :
    stC5.orders 0 = some oC5 ∧ oC5.revealed_secret = none ∧
    ctxC5.now < oC5.expiration_timestamp ∧
    Contract.claim_funds idHash ctxC5 (0, [9, 9]) stC5 =
      Except.ok
        ([Contract.Operation.transfer_tokens oC5.amount ctxC5.sender ctxC5.self_address []],
          { stC5 with orders :=
              (Contract.bigMapUpdate 0 (some { oC5 with revealed_secret := some [9, 9] })
                stC5.orders) }) ∧
    Contract.claim_funds idHash ctxC5 (0, [7]) stC5 = Except.error "Invalid secret" :=
  ⟨rfl, rfl, by decide,
    (C5_claim_semantics idHash ctxC5 stC5 0 oC5 [9, 9] rfl rfl (by decide)).1 rfl,
    (C5_claim_semantics idHash ctxC5 stC5 0 oC5 [7] rfl rfl (by decide)).2 (by decide)⟩

/-- C6 counterexample: the claim as stated (`cancelRequiresMakerCaller`) is
false. The fixture caller `tz1NotMakerD` is not the maker, the time is the
order's cancellation time (strictly before the arbitrary later public stage
time 1001), and yet `cancel_swap` succeeds: the contract performs no caller
check at all. -/
theorem C6_counterexample : ¬ cancelRequiresMakerCaller := by
  intro h
  have hsender := h ctxC6 stC6 0 oC6 1001 rfl rfl (by decide) (by decide)
    ⟨([Contract.Operation.transfer_tokens 75 "tz1MakerD" "KT1EscrowD" []], stC6), rfl⟩
  exact absurd hsender (by decide)

/-- C6 (amended): from a live record, at or after the expiration timestamp,
`cancel_swap` succeeds for every caller (the contract has no private/public
cancellation stages and no caller restriction), and every successful cancel
emits exactly one transfer of the record's amount back to the maker address. -/
theorem C6_cancel_any_caller_refunds_maker (ctx : Contract.Ctx) (st : Contract.Storage)
    (oid : ℕ) (o : Contract.OrderMetadata) (hfound : st.orders oid = some o)
    (hlive : o.revealed_secret = none) (hexp : o.expiration_timestamp ≤ ctx.now) :
    Contract.cancel_swap ctx oid st =
      Except.ok
        ([Contract.Operation.transfer_tokens o.amount o.maker_address ctx.self_address []],
          st) :=
  cancel_swap_ok ctx st oid o hfound hlive hexp

/-- C6 witness: the amended theorem applied to the fixture order with the
non-maker caller `tz1NotMakerD` at the cancellation time. -/
theorem C6_cancel_any_caller_refunds_maker_witness :
    stC6.orders 0 = some oC6 ∧ oC6.revealed_secret = none ∧
    oC6.expiration_timestamp ≤ ctxC6.now ∧ ctxC6.sender ≠ oC6.maker_address ∧
    Contract.cancel_swap ctxC6 0 stC6 =
      Except.ok
        ([Contract.Operation.transfer_tokens oC6.amount oC6.maker_address
            ctxC6.self_address []], stC6) :=
  ⟨rfl, rfl, by decide, by decide,
    C6_cancel_any_caller_refunds_maker ctxC6 stC6 0 oC6 rfl rfl (by decide)⟩

/-- C2 counterexample: the claim as stated (`claimC2Statement`) is false,
because its first half fails: there is no withdrawal-stage opening time below
which claims are rejected. For every candidate opening time `w`, a claim with
the correct secret at a time strictly before `w` (and strictly before the
expiration) succeeds — the contract checks only `now < expiration`. -/
theorem C2_counterexample : ¬ claimC2Statement idHash := by
  intro h
  obtain ⟨w, hw⟩ := h.1 stC2 0 oC2 rfl rfl
  obtain ⟨e, he⟩ :=
    hw { sender := "tz1TakerB", self_address := "KT1EscrowB", now := min (w - 1) 0 } [5, 6]
      (show min (w - 1) 0 < w from lt_of_le_of_lt (min_le_left _ _) (by omega))
  have hok := claim_funds_ok idHash
    { sender := "tz1TakerB", self_address := "KT1EscrowB", now := min (w - 1) 0 }
    stC2 0 oC2 [5, 6] rfl rfl
    (show min (w - 1) 0 < (1000 : ℤ) from lt_of_le_of_lt (min_le_right _ _) (by norm_num)) rfl
  rw [hok] at he
  exact Except.noConfusion he

/-- C2 (amended): for a live record, a `Cancel` strictly before the stored
expiration timestamp fails with `Order not expired yet` (the failure aborts
the operation, so the record is unchanged); and a `Claim` strictly before the
expiration with the correct secret succeeds at any such time — the contract
has no withdrawal-stage lower bound and no `WindowNotYetOpen` error. -/
theorem C2_amended_window_enforcement (keccak256 : Bytes → Bytes) (ctx : Contract.Ctx)
    (st : Contract.Storage) (oid : ℕ) (o : Contract.OrderMetadata) (secret : Bytes)
    (hfound : st.orders oid = some o) (hlive : o.revealed_secret = none)
    (hwin : ctx.now < o.expiration_timestamp) :
    Contract.cancel_swap ctx oid st = Except.error "Order not expired yet" ∧
    (keccak256 secret = o.secret_hash →
      Contract.claim_funds keccak256 ctx (oid, secret) st =
        Except.ok
          ([Contract.Operation.transfer_tokens o.amount ctx.sender ctx.self_address []],
            { st with orders :=
                (Contract.bigMapUpdate oid (some { o with revealed_secret := some secret })
                  st.orders) })) :=
  ⟨cancel_swap_too_early ctx st oid o hfound hlive hwin,
   fun hsec => claim_funds_ok keccak256 ctx st oid o secret hfound hlive hwin hsec⟩

/-- C2 witness: the amended theorem applied to the fixture order (expiring at
1000) at time 500. -/
theorem C2_amended_window_enforcement_witness :
    stC2.orders 0 = some oC2 ∧ oC2.revealed_secret = none ∧
    ctxC2W.now < oC2.expiration_timestamp ∧
    Contract.cancel_swap ctxC2W 0 stC2 = Except.error "Order not expired yet" ∧
    Contract.claim_funds idHash ctxC2W (0, [5, 6]) stC2 =
      Except.ok
        ([Contract.Operation.transfer_tokens oC2.amount ctxC2W.sender ctxC2W.self_address []],
          { stC2 with orders :=
              (Contract.bigMapUpdate 0 (some { oC2 with revealed_secret := some [5, 6] })
                stC2.orders) }) :=
  ⟨rfl, rfl, by decide,
    (C2_amended_window_enforcement idHash ctxC2W stC2 0 oC2 [5, 6] rfl rfl (by decide)).1,
    (C2_amended_window_enforcement idHash ctxC2W stC2 0 oC2 [5, 6] rfl rfl (by decide)).2 rfl⟩

theorem announce_order_invalid_amount (ctx : Contract.Ctx) (st : Contract.Storage)
    (m e : ℕ) (h : Bytes) :
    Contract.announce_order ctx (0, m, e, h) st = Except.error "Invalid amount" := by
  unfold Contract.announce_order
  simp

theorem announce_order_ok (ctx : Contract.Ctx) (st : Contract.Storage) (a m e : ℕ)
    (h : Bytes) (ha : 0 < a) (hm : 0 < m) (he : 0 < e) (hh : h.length = 32) :
    Contract.announce_order ctx (a, m, e, h) st =
      Except.ok ([],
        { orders :=
            (Contract.bigMapUpdate st.order_counter
              (some
                { id := st.order_counter, maker_address := ctx.sender,
                  escrow_address := ctx.self_address, amount := a, secret_hash := h,
                  expiration_timestamp := ctx.now + (e : ℤ), revealed_secret := none })
              st.orders)
          order_counter := st.order_counter + 1
          owner := st.owner }) := by
  have h1 : ¬(a ≤ 0) := by omega
  have h2 : ¬(m ≤ 0) := by omega
  have h3 : ¬(e ≤ 0) := by omega
  unfold Contract.announce_order
  dsimp only
  simp [h1, h2, h3, hh]

theorem main_preserves_amounts (keccak256 : Bytes → Bytes) (ctx : Contract.Ctx)
    (p : Contract.Parameter) (st : Contract.Storage) (ops : List Contract.Operation)
    (st' : Contract.Storage) (hok : Contract.main keccak256 ctx p st = Except.ok (ops, st'))
    (oid : ℕ) (o : Contract.OrderMetadata) (hfound : st.orders oid = some o)
    (hid : oid < st.order_counter) :
    ∃ o', st'.orders oid = some o' ∧ o'.amount = o.amount := by
  cases p with
  | Announce_order a m e h =>
    unfold Contract.main Contract.announce_order at hok
    dsimp only at hok
    split_ifs at hok <;> try exact Except.noConfusion hok
    simp only [Except.ok.injEq, Prod.mk.injEq] at hok
    obtain ⟨-, h6⟩ := hok
    subst h6
    refine ⟨o, ?_, rfl⟩
    simp [Contract.bigMapUpdate, show ¬(oid = st.order_counter) from by omega, hfound]
  | Fund_dst_escrow d e h =>
    unfold Contract.main Contract.fund_dst_escrow at hok
    dsimp only at hok
    split_ifs at hok <;> try exact Except.noConfusion hok
    simp only [Except.ok.injEq, Prod.mk.injEq] at hok
    obtain ⟨-, h6⟩ := hok
    subst h6
    refine ⟨o, ?_, rfl⟩
    simp [Contract.bigMapUpdate, show ¬(oid = st.order_counter) from by omega, hfound]
  | Claim_funds oid' secret =>
    unfold Contract.main Contract.claim_funds at hok
    dsimp only at hok
    cases hmatch : st.orders oid' with
    | none => rw [hmatch] at hok; simp at hok
    | some ord =>
      rw [hmatch] at hok
      dsimp only at hok
      split_ifs at hok <;> try exact Except.noConfusion hok
      simp only [Except.ok.injEq, Prod.mk.injEq] at hok
      obtain ⟨-, h6⟩ := hok
      subst h6
      by_cases hoid : oid = oid'
      · subst hoid
        have ho : o = ord := by
          rw [hfound] at hmatch
          exact Option.some_inj.mp hmatch
        refine ⟨{ ord with revealed_secret := some secret }, ?_, ?_⟩
        · simp [Contract.bigMapUpdate]
        · rw [ho]
      · refine ⟨o, ?_, rfl⟩
        simp [Contract.bigMapUpdate, hoid, hfound]
  | Cancel_swap oid' =>
    unfold Contract.main Contract.cancel_swap at hok
    dsimp only at hok
    cases hmatch : st.orders oid' with
    | none => rw [hmatch] at hok; simp at hok
    | some ord =>
      rw [hmatch] at hok
      dsimp only at hok
      split_ifs at hok <;> try exact Except.noConfusion hok
      simp only [Except.ok.injEq, Prod.mk.injEq] at hok
      obtain ⟨-, h6⟩ := hok
      subst h6
      exact ⟨o, hfound, rfl⟩
  | Rescue_funds oid' =>
    unfold Contract.main Contract.rescue_funds at hok
    dsimp only at hok
    split_ifs at hok <;> try exact Except.noConfusion hok
    cases hmatch : st.orders oid' with
    | none => rw [hmatch] at hok; simp at hok
    | some ord =>
      rw [hmatch] at hok
      dsimp only at hok
      simp only [Except.ok.injEq, Prod.mk.injEq] at hok
      obtain ⟨-, h6⟩ := hok
      subst h6
      exact ⟨o, hfound, rfl⟩

theorem validateEscrowParams_nonpositive_amount (params : TezosUtils.EscrowParams) (amt : ℤ)
    (h1 : TezosUtils.jsTruthy params.orderHash = true)
    (h2 : TezosUtils.jsTruthy params.hashlock = true)
    (h3 : TezosUtils.jsTruthy params.maker = true)
    (h4 : TezosUtils.jsTruthy params.taker = true)
    (h5 : TezosUtils.jsTruthy params.token = true)
    (h6 : TezosUtils.jsTruthy params.amount = true)
    (h7 : TezosUtils.jsTruthy params.safetyDeposit = true)
    (h8 : TezosUtils.matchesBytes32Hex params.orderHash = true)
    (h9 : TezosUtils.matchesBytes32Hex params.hashlock = true)
    (h10 : TezosUtils.matchesTezosAddress params.maker = true)
    (h11 : TezosUtils.matchesTezosAddress params.taker = true)
    (hamt : jsStringToBigInt params.amount = some amt) (hneg : amt ≤ 0) :
    TezosUtils.validateEscrowParams params = Except.error "Amount must be positive" := by
  unfold TezosUtils.validateEscrowParams
  simp [h1, h2, h3, h4, h5, h6, h7, h8, h9, h10, h11, hamt, hneg]

/-- C9: escrow creation requires a strictly positive amount. An announce with
amount 0 (the only non-positive mutez value) fails with `Invalid amount` and —
the failure aborting the operation — creates no record; with a positive amount
and valid other inputs it creates a fresh record in the `Announced` state
(`revealed_secret = none`) holding exactly that amount; no successful contract
operation ever changes the amount of an existing record; and the client-side
`validateEscrowParams` rejects a non-positive amount string with
`Amount must be positive`. -/
theorem C9_positive_amount_required :
    (∀ (ctx : Contract.Ctx) (st : Contract.Storage) (m e : ℕ) (h : Bytes),
      Contract.announce_order ctx (0, m, e, h) st = Except.error "Invalid amount") ∧
    (∀ (ctx : Contract.Ctx) (st : Contract.Storage) (a m e : ℕ) (h : Bytes),
      0 < a → 0 < m → 0 < e → h.length = 32 →
      Contract.announce_order ctx (a, m, e, h) st =
        Except.ok ([],
          { orders :=
              (Contract.bigMapUpdate st.order_counter
                (some
                  { id := st.order_counter, maker_address := ctx.sender,
                    escrow_address := ctx.self_address, amount := a, secret_hash := h,
                    expiration_timestamp := ctx.now + (e : ℤ), revealed_secret := none })
                st.orders)
            order_counter := st.order_counter + 1
            owner := st.owner })) ∧
    (∀ (keccak256 : Bytes → Bytes) (ctx : Contract.Ctx) (p : Contract.Parameter)
      (st : Contract.Storage) (ops : List Contract.Operation) (st' : Contract.Storage),
      Contract.main keccak256 ctx p st = Except.ok (ops, st') →
      ∀ (oid : ℕ) (o : Contract.OrderMetadata), st.orders oid = some o →
        oid < st.order_counter →
        ∃ o', st'.orders oid = some o' ∧ o'.amount = o.amount) ∧
    (∀ (params : TezosUtils.EscrowParams) (amt : ℤ),
      TezosUtils.jsTruthy params.orderHash = true →
      TezosUtils.jsTruthy params.hashlock = true →
      TezosUtils.jsTruthy params.maker = true →
      TezosUtils.jsTruthy params.taker = true →
      TezosUtils.jsTruthy params.token = true →
      TezosUtils.jsTruthy params.amount = true →
      TezosUtils.jsTruthy params.safetyDeposit = true →
      TezosUtils.matchesBytes32Hex params.orderHash = true →
      TezosUtils.matchesBytes32Hex params.hashlock = true →
      TezosUtils.matchesTezosAddress params.maker = true →
      TezosUtils.matchesTezosAddress params.taker = true →
      jsStringToBigInt params.amount = some amt → amt ≤ 0 →
      TezosUtils.validateEscrowParams params = Except.error "Amount must be positive") :=
  ⟨announce_order_invalid_amount, announce_order_ok, main_preserves_amounts,
    validateEscrowParams_nonpositive_amount⟩

/-- C9 witness: the theorem applied to concrete fixtures — a zero-amount
announce fails, a positive-amount announce creates the expected `Announced`
record, a successful expired cancel through `main` preserves the stored
amount, and `validateEscrowParams` with amount string `"0"` reports
`Amount must be positive`. -/
theorem C9_positive_amount_required_witness :
    Contract.announce_order ctxC9 (0, 1, 5, hashC9) stC9 = Except.error "Invalid amount" ∧
    Contract.announce_order ctxC9 (100, 1, 5, hashC9) stC9 =
      Except.ok ([],
        { orders :=
            (Contract.bigMapUpdate stC9.order_counter
              (some
                { id := stC9.order_counter, maker_address := ctxC9.sender,
                  escrow_address := ctxC9.self_address, amount := 100, secret_hash := hashC9,
                  expiration_timestamp := ctxC9.now + ((5 : ℕ) : ℤ), revealed_secret := none })
              stC9.orders)
          order_counter := stC9.order_counter + 1
          owner := stC9.owner }) ∧
    (∃ o', stC9.orders 0 = some o' ∧ o'.amount = oC9.amount) ∧
    TezosUtils.validateEscrowParams paramsC9 = Except.error "Amount must be positive" :=
  ⟨C9_positive_amount_required.1 ctxC9 stC9 1 5 hashC9,
    C9_positive_amount_required.2.1 ctxC9 stC9 100 1 5 hashC9 (by decide) (by decide)
      (by decide) (by decide),
    C9_positive_amount_required.2.2.1 idHash ctxC9 (Contract.Parameter.Cancel_swap 0) stC9
      [Contract.Operation.transfer_tokens 33 "tz1MakerE" "KT1EscrowE" []] stC9 rfl 0 oC9 rfl
      (by decide),
    C9_positive_amount_required.2.2.2 paramsC9 0 rfl rfl rfl rfl rfl rfl rfl rfl rfl rfl rfl
      rfl (by decide)⟩

/-! ## The bit-exact round trip of the timelock codec (C3) -/

/-- Extraction of every 32-bit field from the packed word: shifting and
masking the or-chain built by `packTimelocks` recovers the anchor and each
stage offset, provided every field fits in 32 bits. -/
theorem chain_extract (N D O0 O1 O2 O3 O4 O5 O6 : ℕ)
    (hN : N = D <<< 224 ||| O0 <<< 0 ||| O1 <<< 32 ||| O2 <<< 64 ||| O3 <<< 96 |||
      O4 <<< 128 ||| O5 <<< 160 ||| O6 <<< 192)
    (hD : D < 4294967296) (h0 : O0 < 4294967296) (h1 : O1 < 4294967296)
    (h2 : O2 < 4294967296) (h3 : O3 < 4294967296) (h4 : O4 < 4294967296)
    (h5 : O5 < 4294967296) (h6 : O6 < 4294967296) :
    (N >>> 224) &&& 0xFFFFFFFF = D ∧ (N >>> 0) &&& 0xFFFFFFFF = O0 ∧
    (N >>> 32) &&& 0xFFFFFFFF = O1 ∧ (N >>> 64) &&& 0xFFFFFFFF = O2 ∧
    (N >>> 96) &&& 0xFFFFFFFF = O3 ∧ (N >>> 128) &&& 0xFFFFFFFF = O4 ∧
    (N >>> 160) &&& 0xFFFFFFFF = O5 ∧ (N >>> 192) &&& 0xFFFFFFFF = O6 := by
  subst hN
  refine ⟨?_, ?_, ?_, ?_, ?_, ?_, ?_, ?_⟩ <;>
    simp [lor_shiftRight, lor_land_distrib, shl_shr_hi, shl_shr_lo, shl_land_mask_eq_zero,
      land_mask_self, shr_eq_zero, hD, h0, h1, h2, h3, h4, h5, h6]

/-- Defeq bridge: the `deployedAt` component of `unpackTimelocksVal` on a
non-negative word, expressed through `Nat` bitwise operations. -/
theorem unpackVal_deployedAt_cast (N : ℕ) :
    (TezosUtils.unpackTimelocksVal (N : ℤ)).deployedAt =
      (((N >>> 224) &&& 0xFFFFFFFF : ℕ) : ℤ) := by
  show Int.land ((N : ℤ) >>> (((224 : ℕ)) : ℤ)) 0xFFFFFFFF = _
  rw [intShrLandMask_ofNat]

/-- Defeq bridge: a stage component of `unpackTimelocksVal` on a non-negative
word, expressed through `Nat` bitwise operations; the shift amount is passed
pre-computed so the equation can be instantiated at each concrete stage. -/
theorem unpackVal_stage_cast (N : ℕ) (s : Fin 7) (k : ℕ) (hk : (s : ℕ) * 32 = k) :
    (TezosUtils.unpackTimelocksVal (N : ℤ)).stage s =
      (((N >>> 224) &&& 0xFFFFFFFF : ℕ) : ℤ) + (((N >>> k) &&& 0xFFFFFFFF : ℕ) : ℤ) := by
  subst hk
  show Int.land ((N : ℤ) >>> (((224 : ℕ)) : ℤ)) 0xFFFFFFFF +
      Int.land ((N : ℤ) >>> ((((s : ℕ) * 32 : ℕ)) : ℤ)) 0xFFFFFFFF = _
  rw [intShrLandMask_ofNat, intShrLandMask_ofNat]

/-- C3: for every schedule of seven absolute stage times whose offsets from
the anchor are non-negative and strictly below `2^32`, and whose anchor fits
in 32 bits, unpacking the packed word (including the hex string wire step)
returns exactly the original schedule. -/
theorem C3_unpack_pack_roundtrip (t : Fin 7 → ℤ) (d : ℤ) (hd0 : 0 ≤ d) (hd : d < 2 ^ 32)
    (hoff : ∀ s : Fin 7, 0 ≤ t s - d ∧ t s - d < 2 ^ 32) :
    TezosUtils.unpackTimelocks (TezosUtils.packTimelocks (fun s => some (t s)) d) =
      some { deployedAt := d, stage := t } := by
  obtain ⟨D, hD⟩ : ∃ D : ℕ, d = (D : ℤ) := ⟨d.toNat, (Int.toNat_of_nonneg hd0).symm⟩
  obtain ⟨O0, hO0⟩ : ∃ x : ℕ, t 0 - d = (x : ℤ) :=
    ⟨(t 0 - d).toNat, (Int.toNat_of_nonneg (hoff 0).1).symm⟩
  obtain ⟨O1, hO1⟩ : ∃ x : ℕ, t 1 - d = (x : ℤ) :=
    ⟨(t 1 - d).toNat, (Int.toNat_of_nonneg (hoff 1).1).symm⟩
  obtain ⟨O2, hO2⟩ : ∃ x : ℕ, t 2 - d = (x : ℤ) :=
    ⟨(t 2 - d).toNat, (Int.toNat_of_nonneg (hoff 2).1).symm⟩
  obtain ⟨O3, hO3⟩ : ∃ x : ℕ, t 3 - d = (x : ℤ) :=
    ⟨(t 3 - d).toNat, (Int.toNat_of_nonneg (hoff 3).1).symm⟩
  obtain ⟨O4, hO4⟩ : ∃ x : ℕ, t 4 - d = (x : ℤ) :=
    ⟨(t 4 - d).toNat, (Int.toNat_of_nonneg (hoff 4).1).symm⟩
  obtain ⟨O5, hO5⟩ : ∃ x : ℕ, t 5 - d = (x : ℤ) :=
    ⟨(t 5 - d).toNat, (Int.toNat_of_nonneg (hoff 5).1).symm⟩
  obtain ⟨O6, hO6⟩ : ∃ x : ℕ, t 6 - d = (x : ℤ) :=
    ⟨(t 6 - d).toNat, (Int.toNat_of_nonneg (hoff 6).1).symm⟩
  have hDlt : D < 4294967296 := by
    have := hd
    rw [show (2 : ℤ) ^ 32 = 4294967296 from by norm_num] at this
    omega
  have hb0 : O0 < 4294967296 := by
    have := (hoff 0).2
    rw [show (2 : ℤ) ^ 32 = 4294967296 from by norm_num] at this
    omega
  have hb1 : O1 < 4294967296 := by
    have := (hoff 1).2
    rw [show (2 : ℤ) ^ 32 = 4294967296 from by norm_num] at this
    omega
  have hb2 : O2 < 4294967296 := by
    have := (hoff 2).2
    rw [show (2 : ℤ) ^ 32 = 4294967296 from by norm_num] at this
    omega
  have hb3 : O3 < 4294967296 := by
    have := (hoff 3).2
    rw [show (2 : ℤ) ^ 32 = 4294967296 from by norm_num] at this
    omega
  have hb4 : O4 < 4294967296 := by
    have := (hoff 4).2
    rw [show (2 : ℤ) ^ 32 = 4294967296 from by norm_num] at this
    omega
  have hb5 : O5 < 4294967296 := by
    have := (hoff 5).2
    rw [show (2 : ℤ) ^ 32 = 4294967296 from by norm_num] at this
    omega
  have hb6 : O6 < 4294967296 := by
    have := (hoff 6).2
    rw [show (2 : ℤ) ^ 32 = 4294967296 from by norm_num] at this
    omega
  have hpack : TezosUtils.packTimelocksVal (fun s => some (t s)) d =
      Int.lor (Int.lor (Int.lor (Int.lor (Int.lor (Int.lor (Int.lor
        (d <<< (((224 : ℕ)) : ℤ))
        ((t 0 - d) <<< (((0 : ℕ)) : ℤ)))
        ((t 1 - d) <<< (((32 : ℕ)) : ℤ)))
        ((t 2 - d) <<< (((64 : ℕ)) : ℤ)))
        ((t 3 - d) <<< (((96 : ℕ)) : ℤ)))
        ((t 4 - d) <<< (((128 : ℕ)) : ℤ)))
        ((t 5 - d) <<< (((160 : ℕ)) : ℤ)))
        ((t 6 - d) <<< (((192 : ℕ)) : ℤ)) := rfl
  have hvc : TezosUtils.packTimelocksVal (fun s => some (t s)) d =
      ((D <<< 224 ||| O0 <<< 0 ||| O1 <<< 32 ||| O2 <<< 64 ||| O3 <<< 96 ||| O4 <<< 128 |||
        O5 <<< 160 ||| O6 <<< 192 : ℕ) : ℤ) := by
    rw [hpack, hO0, hO1, hO2, hO3, hO4, hO5, hO6, hD]
    simp only [intShl_ofNat, intLor_ofNat]
  rw [unpackTimelocks_packTimelocks _ _ (by rw [hvc]; exact Int.natCast_nonneg _), hvc]
  set CH : ℕ := D <<< 224 ||| O0 <<< 0 ||| O1 <<< 32 ||| O2 <<< 64 ||| O3 <<< 96 |||
    O4 <<< 128 ||| O5 <<< 160 ||| O6 <<< 192 with hCH
  obtain ⟨e224, e0, e32, e64, e96, e128, e160, e192⟩ :=
    chain_extract CH D O0 O1 O2 O3 O4 O5 O6 hCH hDlt hb0 hb1 hb2 hb3 hb4 hb5 hb6
  have hs0 : (TezosUtils.unpackTimelocksVal (CH : ℤ)).stage 0 = t 0 := by
    rw [unpackVal_stage_cast _ 0 0 rfl, e224, e0]
    omega
  have hs1 : (TezosUtils.unpackTimelocksVal (CH : ℤ)).stage 1 = t 1 := by
    rw [unpackVal_stage_cast _ 1 32 rfl, e224, e32]
    omega
  have hs2 : (TezosUtils.unpackTimelocksVal (CH : ℤ)).stage 2 = t 2 := by
    rw [unpackVal_stage_cast _ 2 64 rfl, e224, e64]
    omega
  have hs3 : (TezosUtils.unpackTimelocksVal (CH : ℤ)).stage 3 = t 3 := by
    rw [unpackVal_stage_cast _ 3 96 rfl, e224, e96]
    omega
  have hs4 : (TezosUtils.unpackTimelocksVal (CH : ℤ)).stage 4 = t 4 := by
    rw [unpackVal_stage_cast _ 4 128 rfl, e224, e128]
    omega
  have hs5 : (TezosUtils.unpackTimelocksVal (CH : ℤ)).stage 5 = t 5 := by
    rw [unpackVal_stage_cast _ 5 160 rfl, e224, e160]
    omega
  have hs6 : (TezosUtils.unpackTimelocksVal (CH : ℤ)).stage 6 = t 6 := by
    rw [unpackVal_stage_cast _ 6 192 rfl, e224, e192]
    omega
  refine congrArg some (UnpackedTimelocks.ext ?_ ?_)
  · rw [unpackVal_deployedAt_cast, e224]
    show ((D : ℕ) : ℤ) = d
    omega
  · funext s
    fin_cases s
    exacts [hs0, hs1, hs2, hs3, hs4, hs5, hs6]

/-- C3 witness: the theorem applied to the concrete schedule anchored at 1000
with offsets 10, 20, ..., 70. -/
theorem C3_unpack_pack_roundtrip_witness :
    (0 : ℤ) ≤ 1000 ∧ (1000 : ℤ) < 2 ^ 32 ∧
    (∀ s : Fin 7, 0 ≤ schedC3 s - 1000 ∧ schedC3 s - 1000 < 2 ^ 32) ∧
    TezosUtils.unpackTimelocks (TezosUtils.packTimelocks (fun s => some (schedC3 s)) 1000) =
      some { deployedAt := 1000, stage := schedC3 } :=
  ⟨by norm_num, by norm_num, by decide,
    C3_unpack_pack_roundtrip schedC3 1000 (by norm_num) (by norm_num) (by decide)⟩

end Tesseract
